import Mathlib

/-!
Shallow embedding of `ECC100Control_lib.py`, a ctypes binding for the
Attocube ECC100 motion-controller driver.  The native library is modelled
as a pure environment (`NativeECC`) supplying the result of each native
call; the wrapped Python methods become `Except`-valued Lean functions,
with a raised `Exception` modelled as `Except.error` carrying the
exception message string.
-/

namespace ECC100Control

/-- Error codes returned by the ECC library functions (class constants). -/
def NCB_Ok : Int := 0

def NCB_Error : Int := -1

def NCB_Timeout : Int := 1

def NCB_NotConnected : Int := 2

def NCB_DriverError : Int := 3

def NCB_DeviceLocked : Int := 7

def NCB_InvalidParam : Int := 11

def NCB_FeatureNotAvailable : Int := 12

/-- ctypes marshalling of a Python int into a `c_int32` slot: silent
truncation to the signed 32-bit range. -/
def toInt32 (v : Int) : Int := (v + 2 ^ 31) % 2 ^ 32 - 2 ^ 31

/-- `get_message`: the fixed status-code-to-message dictionary, with
`dict.get` defaulting to "Unknown error code". -/
def get_message (code : Int) : String :=
  if code = NCB_Ok then ""
  else if code = NCB_Error then "Unspecified error"
  else if code = NCB_Timeout then "Communication timeout"
  else if code = NCB_NotConnected then "No active connection to device"
  else if code = NCB_DriverError then "Error in communication with driver"
  else if code = NCB_DeviceLocked then "Device is already in use by another"
  else if code = NCB_InvalidParam then "Parameter out of range"
  else if code = NCB_FeatureNotAvailable then "Feature not available"
  else "Unknown error code"

/-- `check_error(context, code)`: raise `Exception("Error calling {}: {}"
.format(context, get_message(code)))` when `code != NCB_Ok`, otherwise
return silently. -/
def check_error (context : String) (code : Int) : Except String Unit :=
  if code ≠ NCB_Ok then
    Except.error ("Error calling " ++ context ++ ": " ++ get_message code)
  else
    Except.ok ()

/-- The native driver boundary: one pure function per dll entry point used
by the binding.  Each function takes the marshalled arguments of the call
and returns the status code together with any values the native code
writes into the output-parameter slots. -/
structure NativeECC where
  /-- `ECC_Check(None)`: number of attached devices (the status code). -/
  check : Int
  /-- `ECC_getDeviceInfo(devNo, &devId, &locked)`: status code, written
  device id, written locked flag. -/
  getDeviceInfo : Int → Int × Int × Int
  /-- `ECC_Connect(devNo, &handle)`: status code and written handle. -/
  connect : Int → Int × Int
  /-- `ECC_Close(handle)`: status code. -/
  close : Int → Int
  /-- `ECC_controlAmplitude(handle, axis, &amplitude, set)`: status code. -/
  controlAmplitude : Int → Int → Int → Int → Int
  /-- `ECC_controlFrequency(handle, axis, &frequency, set)`: status code. -/
  controlFrequency : Int → Int → Int → Int → Int
  /-- `ECC_setSingleStep(handle, axis, backward)`: status code. -/
  setSingleStep : Int → Int → Bool → Int

/-- The `for i in range(dev_count)` loop body of `select_device`: query
device info for each index in turn and check the status code (the
printing of id/locked has no observable effect here). -/
def infoLoop (n : NativeECC) : List Nat → Except String Unit
  | [] => Except.ok ()
  | i :: rest =>
    match check_error "ECC_getDeviceInfo" (n.getDeviceInfo (toInt32 i)).1 with
    | Except.error e => Except.error e
    | Except.ok _ => infoLoop n rest

/-- `select_device(self)`: count devices, fail when none, list them, and
prompt for an index (clamped into range) only when more than one device
is present.  `promptInput` is the integer the operator enters at the
prompt; it is consulted only on the `dev_count > 1` path. -/
def select_device (n : NativeECC) (promptInput : Int) : Except String Int :=
  if n.check ≤ 0 then Except.error "No devices found"
  else
    match infoLoop n (List.range n.check.toNat) with
    | Except.error e => Except.error e
    | Except.ok _ =>
      if n.check > 1 then
        Except.ok (min (max promptInput 0) (n.check - 1))
      else
        Except.ok 0

/-- `connect(self, dev_no)`: call `ECC_Connect`, check the status code,
and return the handle value written into the output slot. -/
def connect (n : NativeECC) (dev_no : Int) : Except String Int :=
  let r := n.connect (toInt32 dev_no)
  match check_error "ECC_Connect" r.1 with
  | Except.error e => Except.error e
  | Except.ok _ => Except.ok r.2

/-- `control_amplitude(self, handle, axis, amplitude)`: call
`ECC_controlAmplitude` with the direction flag `1` and check the status
code (the confirmation print has no observable effect here). -/
def control_amplitude (n : NativeECC) (handle axis amplitude : Int) :
    Except String Unit :=
  check_error "ECC_controlAmplitude"
    (n.controlAmplitude (toInt32 handle) (toInt32 axis) (toInt32 amplitude) 1)

/-- `control_frequency(self, handle, axis, frequency)`: call
`ECC_controlFrequency` with the direction flag `1` and check the status
code. -/
def control_frequency (n : NativeECC) (handle axis frequency : Int) :
    Except String Unit :=
  check_error "ECC_controlFrequency"
    (n.controlFrequency (toInt32 handle) (toInt32 axis) (toInt32 frequency) 1)

/-- `step(self, handle, axis, backward)`: call `ECC_setSingleStep` and
check the status code. -/
def step (n : NativeECC) (handle axis : Int) (backward : Bool) :
    Except String Unit :=
  check_error "ECC_setSingleStep"
    (n.setSingleStep (toInt32 handle) (toInt32 axis) backward)

/-- `step_forward(self, handle, axis)`: call `ECC_setSingleStep` with
`c_bool(False)` and check the status code. -/
def step_forward (n : NativeECC) (handle axis : Int) : Except String Unit :=
  check_error "ECC_setSingleStep"
    (n.setSingleStep (toInt32 handle) (toInt32 axis) false)

/-- `step_backward(self, handle, axis)`: call `ECC_setSingleStep` with
`c_bool(True)` and check the status code. -/
def step_backward (n : NativeECC) (handle axis : Int) : Except String Unit :=
  check_error "ECC_setSingleStep"
    (n.setSingleStep (toInt32 handle) (toInt32 axis) true)

/-- `close_device(self, handle)`: call `ECC_Close`, record the status
code in `rc`, and return without checking it (only a print follows). -/
def close_device (n : NativeECC) (handle : Int) : Except String Unit :=
  let _rc := n.close (toInt32 handle)
  Except.ok ()

/-- ctypes argument/return type expressions used in `__init__`. -/
inductive CType where
  | int32
  | cbool
  | void
  | ptr (t : CType)
deriving DecidableEq, Repr

/-- One dll entry point as declared in `__init__`: its name, its
`argtypes` assignment, and its `restype` assignment (`none` when no
restype is assigned, as for `ECC_setSingleStep`). -/
structure EntryPoint where
  name : String
  argtypes : List CType
  restype : Option CType
deriving DecidableEq, Repr

/-- The native entry points declared in `__init__`, in source order. -/
def declaredEntryPoints : List EntryPoint :=
  [⟨"ECC_Check", [CType.ptr CType.void], some CType.int32⟩,
   ⟨"ECC_getDeviceInfo",
     [CType.int32, CType.ptr CType.int32, CType.ptr CType.int32],
     some CType.int32⟩,
   ⟨"ECC_Connect", [CType.int32, CType.ptr CType.int32], some CType.int32⟩,
   ⟨"ECC_Close", [CType.int32], some CType.int32⟩,
   ⟨"ECC_controlAmplitude",
     [CType.int32, CType.int32, CType.ptr CType.int32, CType.int32],
     some CType.int32⟩,
   ⟨"ECC_controlFrequency",
     [CType.int32, CType.int32, CType.ptr CType.int32, CType.int32],
     some CType.int32⟩,
   ⟨"ECC_setSingleStep", [CType.int32, CType.int32, CType.cbool], none⟩]

/-- Environment with a single, unlocked, responsive device on which every
native call succeeds; `ECC_Connect` writes handle 42. -/
def natOne : NativeECC where
  check := 1
  getDeviceInfo := fun _ => (0, 5, 0)
  connect := fun _ => (0, 42)
  close := fun _ => 0
  controlAmplitude := fun _ _ _ _ => 0
  controlFrequency := fun _ _ _ _ => 0
  setSingleStep := fun _ _ _ => 0

/-- Environment with three devices, all of whose info queries succeed. -/
def natThree : NativeECC where
  check := 3
  getDeviceInfo := fun _ => (0, 5, 0)
  connect := fun _ => (0, 42)
  close := fun _ => 0
  controlAmplitude := fun _ _ _ _ => 0
  controlFrequency := fun _ _ _ _ => 0
  setSingleStep := fun _ _ _ => 0

/-- Environment reporting no attached devices. -/
def natZero : NativeECC where
  check := 0
  getDeviceInfo := fun _ => (0, 0, 0)
  connect := fun _ => (0, 0)
  close := fun _ => 0
  controlAmplitude := fun _ _ _ _ => 0
  controlFrequency := fun _ _ _ _ => 0
  setSingleStep := fun _ _ _ => 0

/-- Environment on which every native call fails, each entry point with a
different status code. -/
def natErr : NativeECC where
  check := 2
  getDeviceInfo := fun _ => (3, 0, 0)
  connect := fun _ => (2, 0)
  close := fun _ => -1
  controlAmplitude := fun _ _ _ _ => 1
  controlFrequency := fun _ _ _ _ => 7
  setSingleStep := fun _ _ _ => 12

/-- Environment whose amplitude control always reports status 11
(`NCB_InvalidParam`). -/
def natParam : NativeECC where
  check := 1
  getDeviceInfo := fun _ => (0, 0, 0)
  connect := fun _ => (0, 0)
  close := fun _ => 0
  controlAmplitude := fun _ _ _ _ => 11
  controlFrequency := fun _ _ _ _ => 0
  setSingleStep := fun _ _ _ => 0

/-- Environment whose amplitude/frequency controls echo the direction
flag as the status code. -/
def natFlagA : NativeECC where
  check := 1
  getDeviceInfo := fun _ => (0, 0, 0)
  connect := fun _ => (0, 0)
  close := fun _ => 0
  controlAmplitude := fun _ _ _ flag => flag
  controlFrequency := fun _ _ _ flag => flag
  setSingleStep := fun _ _ _ => 0

/-- Environment whose amplitude/frequency controls return `2 - flag`:
it agrees with `natFlagA` exactly at direction flag 1 and differs at
every other flag value. -/
def natFlagB : NativeECC where
  check := 1
  getDeviceInfo := fun _ => (0, 0, 0)
  connect := fun _ => (0, 0)
  close := fun _ => 0
  controlAmplitude := fun _ _ _ flag => 2 - flag
  controlFrequency := fun _ _ _ flag => 2 - flag
  setSingleStep := fun _ _ _ => 0

theorem check_error_eq_ok (context : String) (code : Int) (h : code = 0) :
    check_error context code = Except.ok () := by
  simp [check_error, NCB_Ok, h]

theorem check_error_eq_error (context : String) (code : Int) (h : code ≠ 0) :
    check_error context code =
      Except.error ("Error calling " ++ context ++ ": " ++ get_message code) := by
  simp [check_error, NCB_Ok, h]

theorem check_error_error_shape (context : String) (code : Int) (e : String)
    (h : check_error context code = Except.error e) :
    e = "Error calling " ++ context ++ ": " ++ get_message code := by
  by_cases hc : code = 0
  · rw [check_error_eq_ok context code hc] at h
    cases h
  · rw [check_error_eq_error context code hc] at h
    cases h
    rfl

theorem infoLoop_cons (n : NativeECC) (a : Nat) (l : List Nat) :
    infoLoop n (a :: l) =
      match check_error "ECC_getDeviceInfo" (n.getDeviceInfo (toInt32 a)).1 with
      | Except.error e => Except.error e
      | Except.ok _ => infoLoop n l := rfl

theorem infoLoop_append (n : NativeECC) (l1 l2 : List Nat) :
    infoLoop n (l1 ++ l2) =
      (infoLoop n l1).bind fun _ => infoLoop n l2 := by
  induction l1 with
  | nil => rfl
  | cons a rest ih =>
    rw [List.cons_append, infoLoop_cons, infoLoop_cons]
    cases check_error "ECC_getDeviceInfo" (n.getDeviceInfo (toInt32 a)).1 with
    | error e => rfl
    | ok _ => exact ih

theorem infoLoop_ok (n : NativeECC) (l : List Nat)
    (h : ∀ j ∈ l, (n.getDeviceInfo (toInt32 j)).1 = 0) :
    infoLoop n l = Except.ok () := by
  induction l with
  | nil => rfl
  | cons a rest ih =>
    unfold infoLoop
    rw [check_error_eq_ok _ _ (h a (List.mem_cons_self a rest))]
    exact ih fun j hj => h j (List.mem_cons_of_mem a hj)

theorem infoLoop_range_error (n : NativeECC) (c i : Nat) (hic : i < c)
    (hi : (n.getDeviceInfo (toInt32 i)).1 ≠ 0)
    (hprev : ∀ j, j < i → (n.getDeviceInfo (toInt32 j)).1 = 0) :
    infoLoop n (List.range c) =
      Except.error ("Error calling " ++ "ECC_getDeviceInfo" ++ ": " ++
        get_message (n.getDeviceInfo (toInt32 i)).1) := by
  induction c with
  | zero => exact absurd hic (Nat.not_lt_zero i)
  | succ c ih =>
    rw [List.range_succ, infoLoop_append]
    rcases Nat.lt_or_ge i c with hlt | hge
    · rw [ih hlt]
      rfl
    · have hie : i = c := Nat.le_antisymm (Nat.lt_succ_iff.mp hic) hge
      subst hie
      rw [infoLoop_ok n (List.range i) fun j hj =>
        hprev j (List.mem_range.mp hj)]
      show infoLoop n [i] = _
      unfold infoLoop
      rw [check_error_eq_error _ _ hi]

theorem infoLoop_error_mem (n : NativeECC) (l : List Nat) (e : String)
    (h : infoLoop n l = Except.error e) :
    ∃ i ∈ l, e = "Error calling " ++ "ECC_getDeviceInfo" ++ ": " ++
      get_message (n.getDeviceInfo (toInt32 i)).1 := by
  induction l with
  | nil => cases h
  | cons a rest ih =>
    unfold infoLoop at h
    revert h
    cases hc : check_error "ECC_getDeviceInfo" (n.getDeviceInfo (toInt32 a)).1 with
    | error e0 =>
      intro h
      cases h
      exact ⟨a, List.mem_cons_self a rest,
        check_error_error_shape _ _ _ hc⟩
    | ok _ =>
      intro h
      obtain ⟨i, hil, hie⟩ := ih h
      exact ⟨i, List.mem_cons_of_mem a hil, hie⟩

/-- C1: for each of the 8 known status codes (0, -1, 1, 2, 3, 7, 11, 12)
`get_message` returns the exact fixed string of the table, and for any
other integer it returns "Unknown error code". -/
theorem C1_get_message_table :
    get_message 0 = "" ∧
    get_message (-1) = "Unspecified error" ∧
    get_message 1 = "Communication timeout" ∧
    get_message 2 = "No active connection to device" ∧
    get_message 3 = "Error in communication with driver" ∧
    get_message 7 = "Device is already in use by another" ∧
    get_message 11 = "Parameter out of range" ∧
    get_message 12 = "Feature not available" ∧
    ∀ code : Int, code ∉ ([0, -1, 1, 2, 3, 7, 11, 12] : List Int) →
      get_message code = "Unknown error code" := by
  refine ⟨rfl, rfl, rfl, rfl, rfl, rfl, rfl, rfl, ?_⟩
  intro code hc
  simp only [List.mem_cons, List.not_mem_nil, or_false, not_or] at hc
  obtain ⟨h0, h1, h2, h3, h4, h5, h6, h7⟩ := hc
  simp [get_message, NCB_Ok, NCB_Error, NCB_Timeout, NCB_NotConnected,
    NCB_DriverError, NCB_DeviceLocked, NCB_InvalidParam,
    NCB_FeatureNotAvailable, h0, h1, h2, h3, h4, h5, h6, h7]

/-- Witness for C1: code 5 is none of the 8 known codes and maps to
"Unknown error code". -/
theorem C1_get_message_table_witness :
    get_message 5 = "Unknown error code" :=
  C1_get_message_table.2.2.2.2.2.2.2.2 5 (by decide)

/-- C2: for every context string and integer code, `check_error` returns
silently exactly when the code is 0, and for a non-zero code it raises a
failure message carrying the context name and the message resolved by
`get_message`. -/
theorem C2_check_error_policy (context : String) (code : Int) :
    (check_error context code = Except.ok () ↔ code = 0) ∧
    (code ≠ 0 → check_error context code =
      Except.error ("Error calling " ++ context ++ ": " ++ get_message code)) := by
  constructor
  · constructor
    · intro h
      by_contra hc
      rw [check_error_eq_error context code hc] at h
      cases h
    · exact check_error_eq_ok context code
  · exact check_error_eq_error context code

/-- Witness for C2: code 0 returns silently, code 3 raises with the
context name and the resolved message. -/
theorem C2_check_error_policy_witness :
    check_error "ECC_Connect" 0 = Except.ok () ∧
    check_error "ECC_Connect" 3 =
      Except.error ("Error calling " ++ "ECC_Connect" ++ ": " ++ get_message 3) :=
  ⟨(C2_check_error_policy "ECC_Connect" 0).1.mpr rfl,
   (C2_check_error_policy "ECC_Connect" 3).2 (by decide)⟩

/-- C4 counterexample: with the native amplitude control returning status
11, the raised failure is "Error calling ECC_controlAmplitude: Parameter
out of range" — the carried context name is the native entry-point name
"ECC_controlAmplitude", not the wrapper name "control_amplitude". -/
theorem C4_counterexample :
    control_amplitude natParam 1 0 30 =
      Except.error "Error calling ECC_controlAmplitude: Parameter out of range" ∧
    "Error calling ECC_controlAmplitude: Parameter out of range" ≠
      "Error calling control_amplitude: Parameter out of range" := by
  constructor
  · rfl
  · decide

/-- C4 (amended): when the native amplitude-control call returns status
code 11, `control_amplitude` raises a failure whose message is
"Parameter out of range" and whose carried context name is
"ECC_controlAmplitude". -/
theorem C4_amplitude_invalid_param (n : NativeECC) (handle axis value : Int)
    (h : n.controlAmplitude (toInt32 handle) (toInt32 axis) (toInt32 value) 1 = 11) :
    control_amplitude n handle axis value =
      Except.error ("Error calling " ++ "ECC_controlAmplitude" ++ ": " ++
        "Parameter out of range") := by
  unfold control_amplitude
  rw [h]
  rfl

/-- Witness for C4 (amended): concrete run on `natParam`. -/
theorem C4_amplitude_invalid_param_witness :
    control_amplitude natParam 1 0 30 =
      Except.error ("Error calling " ++ "ECC_controlAmplitude" ++ ": " ++
        "Parameter out of range") :=
  C4_amplitude_invalid_param natParam 1 0 30 rfl

/-- C7: whenever the native connect call returns status 0 and writes a
handle value into the output slot, `connect` returns exactly that handle
value. -/
theorem C7_connect_returns_handle (n : NativeECC) (dev_no : Int)
    (h : (n.connect (toInt32 dev_no)).1 = 0) :
    connect n dev_no = Except.ok (n.connect (toInt32 dev_no)).2 := by
  show (match check_error "ECC_Connect" (n.connect (toInt32 dev_no)).1 with
        | Except.error e => Except.error e
        | Except.ok _ => Except.ok (n.connect (toInt32 dev_no)).2) =
      Except.ok (n.connect (toInt32 dev_no)).2
  rw [check_error_eq_ok _ _ h]

/-- Witness for C7: on `natOne`, where the native layer returns status 0
and writes handle 42, `connect 0` returns 42 — the spec scenario. -/
theorem C7_connect_returns_handle_witness :
    connect natOne 0 = Except.ok 42 :=
  C7_connect_returns_handle natOne 0 rfl

/-- C8: `control_amplitude` and `control_frequency` depend on the native
layer only through calls carrying direction flag 1 (write): any two
native environments that agree at flag 1 are indistinguishable to the
binding, so the read-back direction is never issued. -/
theorem C8_always_write_direction (n n' : NativeECC)
    (ha : ∀ h a v, n.controlAmplitude h a v 1 = n'.controlAmplitude h a v 1)
    (hf : ∀ h a v, n.controlFrequency h a v 1 = n'.controlFrequency h a v 1)
    (handle axis value : Int) :
    control_amplitude n handle axis value =
      control_amplitude n' handle axis value ∧
    control_frequency n handle axis value =
      control_frequency n' handle axis value := by
  unfold control_amplitude control_frequency
  rw [ha, hf]
  exact ⟨rfl, rfl⟩

/-- Witness for C8: `natFlagA` and `natFlagB` agree only at direction
flag 1, yet the binding cannot tell them apart. -/
theorem C8_always_write_direction_witness :
    control_amplitude natFlagA 0 0 0 = control_amplitude natFlagB 0 0 0 ∧
    control_frequency natFlagA 0 0 0 = control_frequency natFlagB 0 0 0 :=
  C8_always_write_direction natFlagA natFlagB
    (fun _ _ _ => rfl) (fun _ _ _ => rfl) 0 0 0

/-- C3: for every non-zero native status code, each wrapped call except
`close_device` — `connect`, `control_amplitude`, `control_frequency`,
`step`, `step_forward`, `step_backward`, and the device-info query inside
`select_device` — raises a failure carrying that operation's native
entry-point name, while `close_device` never raises regardless of the
native return code. -/
theorem C3_raise_policy (n : NativeECC) (dev_no handle axis value p : Int)
    (backward : Bool) (i : Nat) :
    ((n.connect (toInt32 dev_no)).1 ≠ 0 →
      connect n dev_no = Except.error ("Error calling " ++ "ECC_Connect" ++
        ": " ++ get_message (n.connect (toInt32 dev_no)).1)) ∧
    (n.controlAmplitude (toInt32 handle) (toInt32 axis) (toInt32 value) 1 ≠ 0 →
      control_amplitude n handle axis value =
        Except.error ("Error calling " ++ "ECC_controlAmplitude" ++ ": " ++
          get_message
            (n.controlAmplitude (toInt32 handle) (toInt32 axis) (toInt32 value) 1))) ∧
    (n.controlFrequency (toInt32 handle) (toInt32 axis) (toInt32 value) 1 ≠ 0 →
      control_frequency n handle axis value =
        Except.error ("Error calling " ++ "ECC_controlFrequency" ++ ": " ++
          get_message
            (n.controlFrequency (toInt32 handle) (toInt32 axis) (toInt32 value) 1))) ∧
    (n.setSingleStep (toInt32 handle) (toInt32 axis) backward ≠ 0 →
      step n handle axis backward =
        Except.error ("Error calling " ++ "ECC_setSingleStep" ++ ": " ++
          get_message (n.setSingleStep (toInt32 handle) (toInt32 axis) backward))) ∧
    (n.setSingleStep (toInt32 handle) (toInt32 axis) false ≠ 0 →
      step_forward n handle axis =
        Except.error ("Error calling " ++ "ECC_setSingleStep" ++ ": " ++
          get_message (n.setSingleStep (toInt32 handle) (toInt32 axis) false))) ∧
    (n.setSingleStep (toInt32 handle) (toInt32 axis) true ≠ 0 →
      step_backward n handle axis =
        Except.error ("Error calling " ++ "ECC_setSingleStep" ++ ": " ++
          get_message (n.setSingleStep (toInt32 handle) (toInt32 axis) true))) ∧
    (i < n.check.toNat →
      (n.getDeviceInfo (toInt32 i)).1 ≠ 0 →
      (∀ j, j < i → (n.getDeviceInfo (toInt32 j)).1 = 0) →
      select_device n p =
        Except.error ("Error calling " ++ "ECC_getDeviceInfo" ++ ": " ++
          get_message (n.getDeviceInfo (toInt32 i)).1)) ∧
    close_device n handle = Except.ok () := by
  refine ⟨?_, ?_, ?_, ?_, ?_, ?_, ?_, rfl⟩
  · intro h
    show (match check_error "ECC_Connect" (n.connect (toInt32 dev_no)).1 with
          | Except.error e => Except.error e
          | Except.ok _ => Except.ok (n.connect (toInt32 dev_no)).2) = _
    rw [check_error_eq_error _ _ h]
  · intro h
    exact check_error_eq_error _ _ h
  · intro h
    exact check_error_eq_error _ _ h
  · intro h
    exact check_error_eq_error _ _ h
  · intro h
    exact check_error_eq_error _ _ h
  · intro h
    exact check_error_eq_error _ _ h
  · intro hic hi hprev
    have hpos : ¬ n.check ≤ 0 := by omega
    unfold select_device
    rw [if_neg hpos, infoLoop_range_error n n.check.toNat i hic hi hprev]

/-- Witness for C3: on `natErr` every native call fails; `connect` and
the device-info query raise with their entry-point names, while
`close_device` still returns silently. -/
theorem C3_raise_policy_witness :
    connect natErr 0 = Except.error ("Error calling " ++ "ECC_Connect" ++
      ": " ++ get_message 2) ∧
    select_device natErr 0 = Except.error ("Error calling " ++
      "ECC_getDeviceInfo" ++ ": " ++ get_message 3) ∧
    close_device natErr 5 = Except.ok () := by
  have h := C3_raise_policy natErr 0 5 2 3 0 true 0
  exact ⟨h.1 (by decide),
    h.2.2.2.2.2.2.1 (by decide) (by decide)
      (fun j hj => absurd hj (Nat.not_lt_zero j)),
    h.2.2.2.2.2.2.2⟩

/-- C5: whatever integer the operator enters at the prompt, a successful
`select_device` returns an index clamped into `[0, count-1]`; and when
exactly one device is present (and its info query succeeds), the prompt
input is never consulted and index 0 is returned. -/
theorem C5_select_device_clamp (n : NativeECC) (p ret : Int) :
    (select_device n p = Except.ok ret → 0 ≤ ret ∧ ret ≤ n.check - 1) ∧
    (n.check = 1 → (n.getDeviceInfo (toInt32 0)).1 = 0 →
      select_device n p = Except.ok 0) := by
  constructor
  · intro h
    unfold select_device at h
    split at h
    · cases h
    next hc =>
      split at h
      · cases h
      · split at h
        next h1 =>
          injection h with h'
          subst h'
          exact ⟨le_min (le_max_right p 0) (by omega), min_le_right _ _⟩
        next h1 =>
          injection h with h'
          constructor
          · omega
          · omega
  · intro h1 h2
    have hloop : infoLoop n (List.range (1 : Int).toNat) = Except.ok () := by
      apply infoLoop_ok
      intro j hj
      have hj0 : j = 0 := by
        have := List.mem_range.mp hj
        omega
      subst hj0
      exact_mod_cast h2
    unfold select_device
    rw [h1, hloop]
    rfl

/-- Witness for C5: with three devices and prompt input 99 the returned
index is clamped into `[0, 2]`; with one device (`natOne`) the result is
index 0. -/
theorem C5_select_device_clamp_witness :
    (0 ≤ (2 : Int) ∧ (2 : Int) ≤ natThree.check - 1) ∧
    select_device natOne 7 = Except.ok 0 :=
  ⟨(C5_select_device_clamp natThree 99 2).1 rfl,
   (C5_select_device_clamp natOne 7 0).2 rfl rfl⟩

/-- C6: when the native device-count call reports zero or a negative
count, `select_device` raises the "No devices found" failure; for a
positive count that failure is never raised. -/
theorem C6_no_devices (n : NativeECC) (p : Int) :
    (n.check ≤ 0 → select_device n p = Except.error "No devices found") ∧
    (0 < n.check → select_device n p ≠ Except.error "No devices found") := by
  constructor
  · intro h
    unfold select_device
    rw [if_pos h]
  · intro h hcontra
    unfold select_device at hcontra
    rw [if_neg (by omega)] at hcontra
    revert hcontra
    cases hl : infoLoop n (List.range n.check.toNat) with
    | error e =>
      intro hcontra
      cases hcontra
      obtain ⟨i, _, hie⟩ := infoLoop_error_mem n _ _ hl
      have hlen := congrArg String.length hie
      rw [String.length_append, String.length_append,
        String.length_append] at hlen
      have e1 : ("No devices found" : String).length = 16 := by decide
      have e2 : ("Error calling " : String).length = 14 := by decide
      have e3 : ("ECC_getDeviceInfo" : String).length = 17 := by decide
      have e4 : (": " : String).length = 2 := by decide
      omega
    | ok u =>
      intro hcontra
      have hcontra' : (if n.check > 1 then
          Except.ok (min (max p 0) (n.check - 1)) else
          Except.ok (0 : Int)) = Except.error "No devices found" := hcontra
      by_cases h1 : n.check > 1
      · rw [if_pos h1] at hcontra'
        cases hcontra'
      · rw [if_neg h1] at hcontra'
        cases hcontra'

/-- Witness for C6: zero devices raises "No devices found"; one device
does not. -/
theorem C6_no_devices_witness :
    select_device natZero 0 = Except.error "No devices found" ∧
    select_device natOne 0 ≠ Except.error "No devices found" :=
  ⟨(C6_no_devices natZero 0).1 (by decide),
   (C6_no_devices natOne 0).2 (by decide)⟩

/-- C9 counterexample: `__init__` declares seven native entry points, not
six, and the device-count check's single argument slot is a
pointer-to-void, not an integer slot. -/
theorem C9_counterexample :
    declaredEntryPoints.length ≠ 6 ∧
    (declaredEntryPoints.map EntryPoint.argtypes).head? =
      some [CType.ptr CType.void] := by
  constructor
  · decide
  · rfl

/-- C9 (amended): the binding declares exactly seven native entry points
with fixed signatures (device-count check, device-info query, connect,
close, amplitude control, frequency control, single-step control); every
declared argument type is a 32-bit integer, a boolean, a pointer-to-int32
output slot, or a pointer-to-void slot, and every declared return type is
a 32-bit integer (the single-step entry declares none). -/
theorem C9_entry_points :
    declaredEntryPoints.length = 7 ∧
    declaredEntryPoints.map EntryPoint.name =
      ["ECC_Check", "ECC_getDeviceInfo", "ECC_Connect", "ECC_Close",
       "ECC_controlAmplitude", "ECC_controlFrequency", "ECC_setSingleStep"] ∧
    (declaredEntryPoints.all fun e =>
      (e.argtypes.all fun t =>
        t == CType.int32 || t == CType.cbool ||
        t == CType.ptr CType.int32 || t == CType.ptr CType.void) &&
      (e.restype == some CType.int32 || e.restype == none)) = true := by
  refine ⟨rfl, rfl, ?_⟩
  decide

/-- C10: `step_forward handle axis` is exactly `step handle axis False`
and `step_backward handle axis` is exactly `step handle axis True`: the
same native single-step call with the same arguments and the same
error-checking behaviour. -/
theorem C10_step_equivalence (n : NativeECC) (handle axis : Int) :
    step_forward n handle axis = step n handle axis false ∧
    step_backward n handle axis = step n handle axis true :=
  ⟨rfl, rfl⟩

end ECC100Control
